import Mathlib

/-!
Shallow embedding of the reconciliation logic of the vsphere ansible modules:
`library/vsphere_template.py` (change_guest, wait_for_task, gather_facts and
the create-from-template tail of main) and `library/vsphere_migrate_pool.py`
(the resource-pool path matcher in main).  External collaborators (connection
bootstrap, name lookup) are passed in as resolved values, mirroring the values
the Python code obtains from them.
-/

namespace VSphere

/-- Resolved managed-object reference: an opaque identity plus the display
name exposed by the backend.  The Python code receives such objects from
`get_obj` and reads only their `.name` attribute during comparison. -/
structure ObjRef where
  refId : Nat
  name : String
deriving DecidableEq, Repr

/-- Observed state of an existing VM, holding exactly the attributes that
`change_guest`, `gather_facts` and the commented-out datastore block of
`library/vsphere_template.py` read from the `guest` object. -/
structure Guest where
  /-- guest.resourcePool (lines 227-229) -/
  resourcePool : ObjRef
  /-- guest.parent, compared against the folder at line 233 -/
  parent : ObjRef
  /-- guest.folder, read only inside the folder-change message at line 235 -/
  folder : ObjRef
  /-- guest.datastore[0].name, read only by the commented-out block (221-225) -/
  datastore0name : String
  /-- guest.config.annotation (line 239) -/
  annotationText : String
  /-- guest.config.hardware.numCPU (line 245) -/
  numCPU : Nat
  /-- guest.config.hardware.memoryMB (line 252) -/
  memoryMB : Nat
  /-- guest.summary.runtime.powerState (line 261) -/
  powerState : String
  /-- guest.config.uuid -/
  configUuid : String
  /-- guest.config.name -/
  configName : String
  /-- guest.config.instanceUuid -/
  instanceUuid : String
  /-- guest.summary.config.memorySizeMB -/
  summaryMemorySizeMB : Nat
  /-- guest.summary.config.numCpu -/
  summaryNumCpu : Nat
deriving DecidableEq, Repr

/-- Module parameters of `vsphere_template` after AnsibleModule validation. -/
structure Params where
  vcenter_hostname : String
  username : String
  password : String
  guest : String
  template_src : String
  datastore : String
  folder : String
  resource_pool : String
  notes : String
  num_cpus : Nat
  memory_mb : Nat
  port : Nat
  power_on_after_clone : Bool
deriving DecidableEq, Repr

/-- vim.vm.RelocateSpec: fields stay unset (none) unless assigned. -/
structure RelocateSpec where
  datastore : Option ObjRef := none
  pool : Option ObjRef := none
  folder : Option ObjRef := none
deriving DecidableEq, Repr

/-- vim.vm.ConfigSpec: fields stay unset (none) unless assigned.  The
annotation attribute is named annotationText here. -/
structure ConfigSpec where
  annotationText : Option String := none
  numCPUs : Option Nat := none
  memoryMB : Option Nat := none
  cpuHotAddEnabled : Option Bool := none
  memoryHotAddEnabled : Option Bool := none
deriving DecidableEq, Repr

/-- vim.vm.CloneSpec (lines 181-185). -/
structure CloneSpec where
  location : RelocateSpec
  config : ConfigSpec
  powerOn : Bool
  template : Bool
deriving DecidableEq, Repr

/-- Result of `gather_facts` (lines 313-326). -/
structure Facts where
  vm_uuid : String
  vm_name : String
  instance_uuid : String
  memory_mb : Nat
  memory_gb : Nat
  num_cpus : Nat
deriving DecidableEq, Repr

/-- gather_facts (lines 313-326): copies identity and sizing attributes;
memory_gb is Python 2 integer division of memory_mb by 1024. -/
def gather_facts (virtualmachine : Guest) : Facts :=
  { vm_uuid := virtualmachine.configUuid
    vm_name := virtualmachine.configName
    instance_uuid := virtualmachine.instanceUuid
    memory_mb := virtualmachine.summaryMemorySizeMB
    memory_gb := virtualmachine.summaryMemorySizeMB / 1024
    num_cpus := virtualmachine.summaryNumCpu }

/-- A backend fault carried by a failed task (task.info.error). -/
inductive Fault where
  /-- vim.fault.DuplicateName, carrying the colliding object's name -/
  | duplicateName (name : String)
  /-- any other fault kind -/
  | other (detail : String)
deriving DecidableEq, Repr

/-- One observed value of task.info during polling.  `success` carries
task.info.result (the cloned VM for clone tasks, ignored otherwise). -/
inductive TaskState where
  | success (result : Guest)
  | error (fault : Fault)
  | running
deriving DecidableEq, Repr

/-- Outcome of `wait_for_task`: the result payload on success, a fatal
module.fail_json on error, or divergence when the poll stream never shows a
terminal state (the Python loop then spins forever). -/
inductive WaitOutcome where
  | result (payload : Guest)
  | failJson (msg : String)
  | diverged
deriving DecidableEq, Repr

/-- wait_for_task (lines 298-311) over the successive values of task.info: a
success state returns its payload, an error state calls module.fail_json with
the generic message, refined iff the fault is a DuplicateName, and any other
state keeps polling. -/
def wait_for_task : List TaskState → WaitOutcome
  | [] => .diverged
  | s :: rest =>
    match s with
    | .success r => .result r
    | .error f =>
      let error_msg := "an error occurred while waiting for the task to complete"
      let error_msg := match f with
        | .duplicateName n => "an object with the name " ++ n ++ " already exists"
        | .other _ => error_msg
      .failJson error_msg
    | .running => wait_for_task rest

/-- A unit of backend work submitted by the module. -/
inductive VTask where
  /-- guest.RelocateVM_Task(spec=...) (line 273) -/
  | relocate (spec : RelocateSpec)
  /-- guest.ReconfigVM_Task(spec=...) (line 276) -/
  | reconfigure (spec : ConfigSpec)
  /-- template.Clone(folder=..., name=..., spec=...) (lines 192-195) -/
  | clone (folder : ObjRef) (name : String) (spec : CloneSpec)
deriving DecidableEq, Repr

/-- Terminal result of one module run: module.fail_json(msg), module.exit_json
(the changes key is absent on the no-op path, hence Option), a Python
unbound-local NameError raised while evaluating an exit_json argument, or
divergence inherited from an endless poll loop. -/
inductive ModuleResult where
  | failJson (msg : String)
  | exitJson (changed : Bool) (changes : Option (List String)) (ansible_facts : Facts)
  | unboundLocal (var : String)
  | diverged
deriving DecidableEq, Repr

/-- A run outcome: the terminal result together with the backend work items
submitted before it, in submission order. -/
structure RunOutcome where
  result : ModuleResult
  tasks : List VTask
deriving DecidableEq, Repr

/-- Accumulated local state of change_guest after its comparison block
(lines 211-257): the change descriptions, the three flags and the two specs. -/
structure CompResult where
  changes : List String
  relocation_required : Bool
  reconfiguration_required : Bool
  requires_shutdown : Bool
  relocation_spec : RelocateSpec
  virtualmachine_conf : ConfigSpec
deriving DecidableEq, Repr

/-- Initial local state of change_guest (lines 211-216): empty changes, all
flags false, both specs freshly constructed with no field set. -/
def comp_init : CompResult :=
  { changes := []
    relocation_required := false
    reconfiguration_required := false
    requires_shutdown := false
    relocation_spec := {}
    virtualmachine_conf := {} }

/-- Resource-pool comparison (lines 227-231): compares the display names of
the VM's current pool and the resolved desired pool. -/
def step_pool (guest : Guest) (resource_pool : ObjRef) (s : CompResult) : CompResult :=
  if guest.resourcePool.name ≠ resource_pool.name then
    { s with
      changes := s.changes ++
        ["Relocate VM from resource pool " ++ guest.resourcePool.name ++
          " to " ++ resource_pool.name]
      relocation_spec := { s.relocation_spec with pool := some resource_pool }
      relocation_required := true }
  else s

/-- Folder comparison (lines 233-237): compares guest.parent.name with the
resolved folder's name; the message reads guest.folder.name. -/
def step_folder (guest : Guest) (folder : ObjRef) (s : CompResult) : CompResult :=
  if guest.parent.name ≠ folder.name then
    { s with
      changes := s.changes ++
        ["Relocate VM from folder " ++ guest.folder.name ++ " to " ++ folder.name]
      relocation_spec := { s.relocation_spec with folder := some folder }
      relocation_required := true }
  else s

/-- Annotation comparison (lines 239-243). -/
def step_notes (guest : Guest) (params : Params) (s : CompResult) : CompResult :=
  if guest.annotationText ≠ params.notes then
    { s with
      changes := s.changes ++
        ["Change configured annotation of VM from \"" ++ guest.annotationText ++
          "\" to \"" ++ params.notes ++ "\""]
      virtualmachine_conf := { s.virtualmachine_conf with annotationText := some params.notes }
      reconfiguration_required := true }
  else s

/-- CPU-count comparison (lines 245-250): also marks the change as requiring
a shutdown. -/
def step_cpus (guest : Guest) (params : Params) (s : CompResult) : CompResult :=
  if guest.numCPU ≠ params.num_cpus then
    { s with
      changes := s.changes ++
        ["Change configured number of CPUs of VM from " ++ toString guest.numCPU ++
          " to " ++ toString params.num_cpus]
      virtualmachine_conf := { s.virtualmachine_conf with numCPUs := some params.num_cpus }
      reconfiguration_required := true
      requires_shutdown := true }
  else s

/-- Memory comparison (lines 252-257): also marks the change as requiring a
shutdown. -/
def step_memory (guest : Guest) (params : Params) (s : CompResult) : CompResult :=
  if guest.memoryMB ≠ params.memory_mb then
    { s with
      changes := s.changes ++
        ["Change configured memory in MB of VM from " ++ toString guest.memoryMB ++
          " to " ++ toString params.memory_mb]
      virtualmachine_conf := { s.virtualmachine_conf with memoryMB := some params.memory_mb }
      reconfiguration_required := true
      requires_shutdown := true }
  else s

/-- The comparison block of change_guest (lines 211-257), run in source
order.  The datastore block (lines 218-225) is commented out in the source,
so no step reads the desired datastore or guest.datastore0name. -/
def compare_guest (guest : Guest) (params : Params) (folder resource_pool : ObjRef) :
    CompResult :=
  step_memory guest params
    (step_cpus guest params
      (step_notes guest params
        (step_folder guest folder
          (step_pool guest resource_pool comp_init))))

/-- The execution part of change_guest (lines 272-277 followed by 278-281):
submits one RelocateVM_Task when relocation is required, waits for it, then
one ReconfigVM_Task when reconfiguration is required, waits for it, and exits
with changed true; a failed or endless wait aborts the run there.  Poll
streams for the two possible tasks are passed in. -/
def exec_changes (c : CompResult) (relocPoll reconfPoll : List TaskState)
    (facts : Facts) : RunOutcome :=
  if c.relocation_required then
    match wait_for_task relocPoll with
    | .failJson m => ⟨.failJson m, [.relocate c.relocation_spec]⟩
    | .diverged => ⟨.diverged, [.relocate c.relocation_spec]⟩
    | .result _ =>
      if c.reconfiguration_required then
        match wait_for_task reconfPoll with
        | .failJson m =>
          ⟨.failJson m, [.relocate c.relocation_spec, .reconfigure c.virtualmachine_conf]⟩
        | .diverged =>
          ⟨.diverged, [.relocate c.relocation_spec, .reconfigure c.virtualmachine_conf]⟩
        | .result _ =>
          ⟨.exitJson true (some c.changes) facts,
            [.relocate c.relocation_spec, .reconfigure c.virtualmachine_conf]⟩
      else
        ⟨.exitJson true (some c.changes) facts, [.relocate c.relocation_spec]⟩
  else
    if c.reconfiguration_required then
      match wait_for_task reconfPoll with
      | .failJson m => ⟨.failJson m, [.reconfigure c.virtualmachine_conf]⟩
      | .diverged => ⟨.diverged, [.reconfigure c.virtualmachine_conf]⟩
      | .result _ =>
        ⟨.exitJson true (some c.changes) facts, [.reconfigure c.virtualmachine_conf]⟩
    else
      ⟨.exitJson true (some c.changes) facts, []⟩

/-- change_guest (lines 204-285): compares, gates on power state when any
change requires a shutdown, and either fails, reports the changes unapplied
in check mode, or submits relocation then reconfiguration work. -/
def change_guest (guest : Guest) (params : Params) (check_mode : Bool)
    (datastore folder resource_pool : ObjRef)
    (relocPoll reconfPoll : List TaskState) : RunOutcome :=
  let c := compare_guest guest params folder resource_pool
  if c.changes.length > 0 then
    if c.requires_shutdown = true ∧ guest.powerState = "poweredOn" then
      ⟨.failJson ("VM " ++ params.guest ++
        " is powered on and virtual hardware changes have been detected. " ++
        "Please shutdown the VM and rerun this action to apply the " ++
        "following changes: " ++ String.intercalate ", " c.changes), []⟩
    else
      if check_mode then
        ⟨.exitJson true
          (some (c.changes ++
            ["These changes were detected, but not applied, due to running in check mode"]))
          (gather_facts guest), []⟩
      else
        exec_changes c relocPoll reconfPoll (gather_facts guest)
  else
    ⟨.exitJson false none (gather_facts guest), []⟩

/-- module.exit_json(changed=True, changes=changes, ansible_facts=gather_facts(new_vm))
at lines 199-202: evaluating gather_facts raises a Python NameError when the
local new_vm was never assigned. -/
def exit_clone (changes : List String) (new_vm : Option Guest) (tasks : List VTask) :
    RunOutcome :=
  match new_vm with
  | none => ⟨.unboundLocal "new_vm", tasks⟩
  | some vm => ⟨.exitJson true (some changes) (gather_facts vm), tasks⟩

/-- The tail of main (lines 167-202), reached only when the guest lookup
found no existing VM: builds the relocation, configuration and clone specs,
then either constructs the check-mode message without submitting anything, or
submits the clone task and waits; either way it ends in exit_clone. -/
def clone_from_template (params : Params) (check_mode : Bool)
    (template datastore folder resource_pool : ObjRef)
    (clonePoll : List TaskState) : RunOutcome :=
  let relospec : RelocateSpec := { datastore := some datastore, pool := some resource_pool }
  let vmconf : ConfigSpec :=
    { numCPUs := some params.num_cpus
      memoryMB := some params.memory_mb
      cpuHotAddEnabled := some false
      memoryHotAddEnabled := some false
      annotationText := some params.notes }
  let clonespec : CloneSpec :=
    { location := relospec
      config := vmconf
      powerOn := params.power_on_after_clone
      template := false }
  if check_mode then
    exit_clone
      ["vm " ++ params.guest ++ " would have been created, if not running in check mode"]
      none []
  else
    let cloneTask := VTask.clone folder params.guest clonespec
    match wait_for_task clonePoll with
    | .failJson m => ⟨.failJson m, [cloneTask]⟩
    | .diverged => ⟨.diverged, [cloneTask]⟩
    | .result vm =>
      exit_clone ["vm " ++ params.guest ++ " has been created"] (some vm) [cloneTask]

/-- main of `vsphere_template.py` (lines 97-202) after connection: the four
lookups are passed in as their Option results; a missing template, datastore,
folder or pool fails; an existing guest is handled by change_guest and
otherwise the clone path runs. -/
def vsphere_template_main (params : Params) (check_mode : Bool)
    (template datastore folder resource_pool : Option ObjRef)
    (guest : Option Guest)
    (clonePoll relocPoll reconfPoll : List TaskState) : RunOutcome :=
  match template with
  | none =>
    ⟨.failJson ("template \"" ++ params.template_src ++
      "\" not found on vCenter server at " ++ params.vcenter_hostname), []⟩
  | some template =>
    match datastore with
    | none =>
      ⟨.failJson ("datastore " ++ params.datastore ++
        " not found on vCenter server at " ++ params.vcenter_hostname), []⟩
    | some datastore =>
      match folder with
      | none =>
        ⟨.failJson ("folder " ++ params.folder ++
          " not found on vCenter server at " ++ params.vcenter_hostname), []⟩
      | some folder =>
        match resource_pool with
        | none =>
          ⟨.failJson ("resource_pool " ++ params.resource_pool ++
            " not found on vCenter server at " ++ params.vcenter_hostname), []⟩
        | some resource_pool =>
          match guest with
          | some g =>
            change_guest g params check_mode datastore folder resource_pool
              relocPoll reconfPoll
          | none =>
            clone_from_template params check_mode template datastore folder
              resource_pool clonePoll

end VSphere

namespace MigratePool

/-- Module parameters of `vsphere_migrate_pool` after AnsibleModule
validation. -/
structure PoolParams where
  vcenter_hostname : String
  username : String
  password : String
  guest : String
  resource_pool : String
  cluster : String
  sync : Bool
deriving DecidableEq, Repr

/-- One virtualmachine.migrate(...) call (lines 110-113). -/
structure Migration where
  resource_pool : Nat
  host : String
  sync_run : Bool
deriving DecidableEq, Repr

/-- Terminal result of a `vsphere_migrate_pool` run: module.fail_json or
module.exit_json; exit_json always carries changes=module.params here. -/
inductive PoolResult where
  | failJson (msg : String)
  | exitJson (changed : Bool) (changes : PoolParams)
deriving DecidableEq, Repr

/-- A pool-migration run outcome: terminal result plus the migrations
submitted to the backend. -/
structure PoolRunOutcome where
  result : PoolResult
  migrations : List Migration
deriving DecidableEq, Repr

/-- Case-sensitive suffix test on strings, by their character lists.  This
embeds the source's re.match(pattern, path) where the pattern is built as
dot-star plus the name plus a trailing anchor: on names without regex
metacharacters and single-line paths that regex holds exactly when the path
ends with the name. -/
def ends_with (path suffix : String) : Bool :=
  suffix.data.isSuffixOf path.data

/-- The matcher loop of main (lines 106-117) over the (reference, path)
pairs returned by server.get_resource_pools.  The first path ending with the
desired pool name decides the run: if it also ends with the VM's current
pool name the run exits unchanged, otherwise the VM is migrated there
(skipped in check mode) and the run exits changed.  When no path ends with
the desired name the run fails. -/
def find_pool_loop (params : PoolParams) (check_mode : Bool)
    (old_name vm_host : String) : List (Nat × String) → PoolRunOutcome
  | [] => ⟨.failJson ("Resource pool " ++ params.resource_pool ++ " not found"), []⟩
  | (mor, path) :: rest =>
    if ends_with path params.resource_pool then
      if ¬ ends_with path old_name then
        ⟨.exitJson true params,
          if check_mode then [] else [⟨mor, vm_host, params.sync⟩]⟩
      else
        ⟨.exitJson false params, []⟩
    else
      find_pool_loop params check_mode old_name vm_host rest

/-- main of `vsphere_migrate_pool.py` (lines 67-117) after connection:
old_name is the VM's current pool name, vm_host its hostname property,
clusters the (reference, name) listing from server.get_clusters and rps the
pool listing per cluster reference.  A missing cluster fails naming cluster
and server; otherwise the matcher loop decides. -/
def vsphere_migrate_pool_main (params : PoolParams) (check_mode : Bool)
    (old_name vm_host : String) (clusters : List (Nat × String))
    (rps : Nat → List (Nat × String)) : PoolRunOutcome :=
  match clusters.find? (fun c => c.2 == params.cluster) with
  | none =>
    ⟨.failJson ("Cluster " ++ params.cluster ++ " not found on server " ++
      params.vcenter_hostname), []⟩
  | some cluster =>
    find_pool_loop params check_mode old_name vm_host (rps cluster.1)

end MigratePool

namespace VSphere

/-- Concrete VM for exercising the safety gate: resource pool and CPU count
differ from the desired spec below and the VM is powered on. -/
def guestC1 : Guest :=
  { resourcePool := ⟨1, "PoolA"⟩, parent := ⟨2, "FolderA"⟩, folder := ⟨2, "FolderA"⟩
    datastore0name := "DS1", annotationText := "note", numCPU := 2, memoryMB := 4096
    powerState := "poweredOn", configUuid := "u1", configName := "vm1"
    instanceUuid := "i1", summaryMemorySizeMB := 4096, summaryNumCpu := 2 }

/-- Desired spec paired with guestC1: a new pool name and 4 CPUs. -/
def paramsC1 : Params :=
  { vcenter_hostname := "vc.example.com", username := "admin", password := "pw"
    guest := "vm1", template_src := "tmpl", datastore := "DS1", folder := "FolderA"
    resource_pool := "PoolB", notes := "note", num_cpus := 4, memory_mb := 4096
    port := 443, power_on_after_clone := true }

/-- Concrete VM already equal to the desired projection of paramsC2. -/
def guestC2 : Guest :=
  { resourcePool := ⟨1, "PoolA"⟩, parent := ⟨2, "FolderA"⟩, folder := ⟨2, "FolderA"⟩
    datastore0name := "DS1", annotationText := "note", numCPU := 2, memoryMB := 4096
    powerState := "poweredOn", configUuid := "u2", configName := "vm2"
    instanceUuid := "i2", summaryMemorySizeMB := 4096, summaryNumCpu := 2 }

/-- Desired spec whose projection guestC2 already satisfies. -/
def paramsC2 : Params :=
  { vcenter_hostname := "vc.example.com", username := "admin", password := "pw"
    guest := "vm2", template_src := "tmpl", datastore := "DS1", folder := "FolderA"
    resource_pool := "PoolA", notes := "note", num_cpus := 2, memory_mb := 4096
    port := 443, power_on_after_clone := true }

/-- Concrete VM needing both a relocation (pool) and a reconfiguration
(annotation), neither requiring shutdown. -/
def guestC3 : Guest :=
  { resourcePool := ⟨1, "PoolA"⟩, parent := ⟨2, "FolderA"⟩, folder := ⟨2, "FolderA"⟩
    datastore0name := "DS1", annotationText := "a", numCPU := 2, memoryMB := 4096
    powerState := "poweredOn", configUuid := "u3", configName := "vm3"
    instanceUuid := "i3", summaryMemorySizeMB := 4096, summaryNumCpu := 2 }

/-- Desired spec paired with guestC3: new pool name and new annotation. -/
def paramsC3 : Params :=
  { vcenter_hostname := "vc.example.com", username := "admin", password := "pw"
    guest := "vm3", template_src := "tmpl", datastore := "DS1", folder := "FolderA"
    resource_pool := "PoolB", notes := "b", num_cpus := 2, memory_mb := 4096
    port := 443, power_on_after_clone := true }

/-- Concrete VM whose pool and parent references carry the same display
names as the desired references below but different identities. -/
def guestC4 : Guest :=
  { resourcePool := ⟨1, "PoolA"⟩, parent := ⟨2, "FolderA"⟩, folder := ⟨2, "FolderA"⟩
    datastore0name := "DS1", annotationText := "note", numCPU := 2, memoryMB := 4096
    powerState := "poweredOff", configUuid := "u4", configName := "vm4"
    instanceUuid := "i4", summaryMemorySizeMB := 4096, summaryNumCpu := 2 }

/-- Desired spec paired with guestC4: names all equal the observed ones. -/
def paramsC4 : Params :=
  { vcenter_hostname := "vc.example.com", username := "admin", password := "pw"
    guest := "vm4", template_src := "tmpl", datastore := "DS1", folder := "FolderA"
    resource_pool := "PoolA", notes := "note", num_cpus := 2, memory_mb := 4096
    port := 443, power_on_after_clone := true }

/-- Concrete VM with only an annotation difference, for the check-mode
response shape. -/
def guestC9 : Guest :=
  { resourcePool := ⟨1, "PoolA"⟩, parent := ⟨2, "FolderA"⟩, folder := ⟨2, "FolderA"⟩
    datastore0name := "DS1", annotationText := "old note", numCPU := 2, memoryMB := 4096
    powerState := "poweredOn", configUuid := "u9", configName := "vm9"
    instanceUuid := "i9", summaryMemorySizeMB := 4096, summaryNumCpu := 2 }

/-- Desired spec paired with guestC9: only the annotation differs. -/
def paramsC9 : Params :=
  { vcenter_hostname := "vc.example.com", username := "admin", password := "pw"
    guest := "vm9", template_src := "tmpl", datastore := "DS1", folder := "FolderA"
    resource_pool := "PoolA", notes := "new note", num_cpus := 2, memory_mb := 4096
    port := 443, power_on_after_clone := true }

end VSphere

namespace MigratePool

/-- Parameters reproducing the anti-loop situation: the desired name is a
suffix of the VM's current pool path. -/
def poolParamsC5 : PoolParams :=
  { vcenter_hostname := "vc.example.com", username := "admin", password := "pw"
    guest := "vm1", resource_pool := "Pool", cluster := "ClusterA", sync := true }

/-- Parameters for a plain successful pool migration. -/
def poolParamsC5W : PoolParams :=
  { vcenter_hostname := "vc.example.com", username := "admin", password := "pw"
    guest := "vm1", resource_pool := "Resources", cluster := "ClusterA", sync := true }

/-- Parameters naming a pool absent from every candidate path, run against
the first of two servers. -/
def poolParamsC6A : PoolParams :=
  { vcenter_hostname := "server-one.example.com", username := "admin", password := "pw"
    guest := "vm1", resource_pool := "Ghost", cluster := "ClusterA", sync := true }

/-- The same parameters as poolParamsC6A at a second server. -/
def poolParamsC6B : PoolParams :=
  { vcenter_hostname := "server-two.example.com", username := "admin", password := "pw"
    guest := "vm1", resource_pool := "Ghost", cluster := "ClusterA", sync := true }

end MigratePool

namespace VSphere

/-- Normal form of the comparison block: each field of the accumulated state
as a function of the five independent comparisons, in source order. -/
theorem compare_guest_eq (g : Guest) (p : Params) (f rp : ObjRef) :
    compare_guest g p f rp =
      { changes :=
          (if g.resourcePool.name ≠ rp.name then
            ["Relocate VM from resource pool " ++ g.resourcePool.name ++
              " to " ++ rp.name] else []) ++
          (if g.parent.name ≠ f.name then
            ["Relocate VM from folder " ++ g.folder.name ++ " to " ++ f.name] else []) ++
          (if g.annotationText ≠ p.notes then
            ["Change configured annotation of VM from \"" ++ g.annotationText ++
              "\" to \"" ++ p.notes ++ "\""] else []) ++
          (if g.numCPU ≠ p.num_cpus then
            ["Change configured number of CPUs of VM from " ++ toString g.numCPU ++
              " to " ++ toString p.num_cpus] else []) ++
          (if g.memoryMB ≠ p.memory_mb then
            ["Change configured memory in MB of VM from " ++ toString g.memoryMB ++
              " to " ++ toString p.memory_mb] else [])
        relocation_required :=
          decide (g.resourcePool.name ≠ rp.name) || decide (g.parent.name ≠ f.name)
        reconfiguration_required :=
          decide (g.annotationText ≠ p.notes) || decide (g.numCPU ≠ p.num_cpus) ||
            decide (g.memoryMB ≠ p.memory_mb)
        requires_shutdown :=
          decide (g.numCPU ≠ p.num_cpus) || decide (g.memoryMB ≠ p.memory_mb)
        relocation_spec :=
          { datastore := none
            pool := if g.resourcePool.name ≠ rp.name then some rp else none
            folder := if g.parent.name ≠ f.name then some f else none }
        virtualmachine_conf :=
          { annotationText := if g.annotationText ≠ p.notes then some p.notes else none
            numCPUs := if g.numCPU ≠ p.num_cpus then some p.num_cpus else none
            memoryMB := if g.memoryMB ≠ p.memory_mb then some p.memory_mb else none
            cpuHotAddEnabled := none
            memoryHotAddEnabled := none } } := by
  unfold compare_guest step_memory step_cpus step_notes step_folder step_pool comp_init
  split_ifs <;> simp_all

/-- C2: when the observed state of the existing VM already equals the
projection of the desired spec onto the observed fields, the run exits with
changed false plus the gathered facts and submits no backend work. -/
theorem c2_idempotent_noop (g : Guest) (p : Params) (cm : Bool)
    (d f rp : ObjRef) (rl rc : List TaskState)
    (hpool : g.resourcePool = rp) (hfolder : g.parent = f)
    (hnotes : g.annotationText = p.notes) (hcpu : g.numCPU = p.num_cpus)
    (hmem : g.memoryMB = p.memory_mb) :
    change_guest g p cm d f rp rl rc =
      ⟨.exitJson false none (gather_facts g), []⟩ := by
  simp only [change_guest, compare_guest_eq, hpool, hfolder, hnotes, hcpu, hmem]
  simp

/-- C10: in check mode with the guest VM absent, the create-from-template
path ends in the Python unbound-local error on new_vm instead of the dry-run
response, and submits nothing. -/
theorem c10_check_mode_unbound_new_vm (p : Params) (t d f rp : ObjRef)
    (cp rl rc : List TaskState) :
    vsphere_template_main p true (some t) (some d) (some f) (some rp) none cp rl rc =
      ⟨.unboundLocal "new_vm", []⟩ := rfl

/-- C7: a polled task reaching the terminal error state fails the run
fatally; the message names the colliding object exactly when the fault is a
DuplicateName, and is the generic waiting-error message for every other
fault kind. -/
theorem c7_task_failure_classification (pre : List TaskState)
    (hpre : ∀ s ∈ pre, s = TaskState.running) (f : Fault) (rest : List TaskState) :
    wait_for_task (pre ++ TaskState.error f :: rest) =
      .failJson (match f with
        | .duplicateName n => "an object with the name " ++ n ++ " already exists"
        | .other _ => "an error occurred while waiting for the task to complete") := by
  induction pre with
  | nil => cases f <;> rfl
  | cons s tl ih =>
    have hs : s = TaskState.running := hpre s (by simp)
    subst hs
    exact ih (fun t ht => hpre t (by simp [ht]))

end VSphere

namespace VSphere

/-- A CPU or memory difference always sets the requires_shutdown flag. -/
theorem requires_shutdown_of_hw (g : Guest) (p : Params) (f rp : ObjRef)
    (h : g.numCPU ≠ p.num_cpus ∨ g.memoryMB ≠ p.memory_mb) :
    (compare_guest g p f rp).requires_shutdown = true := by
  rw [compare_guest_eq]
  rcases h with h | h <;> simp [h]

/-- A CPU or memory difference always makes the change list non-empty. -/
theorem changes_pos_of_hw (g : Guest) (p : Params) (f rp : ObjRef)
    (h : g.numCPU ≠ p.num_cpus ∨ g.memoryMB ≠ p.memory_mb) :
    0 < (compare_guest g p f rp).changes.length := by
  rw [compare_guest_eq]
  rcases h with h | h <;> simp [h]

/-- A required relocation always makes the change list non-empty. -/
theorem changes_pos_of_reloc (g : Guest) (p : Params) (f rp : ObjRef)
    (h : (compare_guest g p f rp).relocation_required = true) :
    0 < (compare_guest g p f rp).changes.length := by
  rw [compare_guest_eq] at h ⊢
  simp only [Bool.or_eq_true, decide_eq_true_eq] at h
  rcases h with h | h <;> simp [h]

/-- C1: whenever a CPU or memory change is pending (the changes that require
a shutdown) and the VM is powered on, change_guest fails with the message
listing the comma-join of every pending change, the non-shutdown ones
included, and submits no backend work, in run and check mode alike. -/
theorem c1_safety_gate_blocks (g : Guest) (p : Params) (cm : Bool)
    (d f rp : ObjRef) (rl rc : List TaskState)
    (hhw : g.numCPU ≠ p.num_cpus ∨ g.memoryMB ≠ p.memory_mb)
    (hpow : g.powerState = "poweredOn") :
    change_guest g p cm d f rp rl rc =
      ⟨.failJson ("VM " ++ p.guest ++
        " is powered on and virtual hardware changes have been detected. " ++
        "Please shutdown the VM and rerun this action to apply the " ++
        "following changes: " ++
        String.intercalate ", " (compare_guest g p f rp).changes), []⟩ := by
  have h1 := changes_pos_of_hw g p f rp hhw
  have h2 := requires_shutdown_of_hw g p f rp hhw
  simp only [change_guest]
  rw [if_pos h1, if_pos ⟨h2, hpow⟩]

set_option maxRecDepth 8192 in
/-- C1 witness: guestC1 needs a pool change and a CPU change while powered
on; the failure message lists both and nothing is submitted. -/
theorem c1_safety_gate_blocks_witness :
    (guestC1.numCPU ≠ paramsC1.num_cpus ∨ guestC1.memoryMB ≠ paramsC1.memory_mb)
    ∧ guestC1.powerState = "poweredOn"
    ∧ change_guest guestC1 paramsC1 false ⟨9, "DS1"⟩ ⟨2, "FolderA"⟩ ⟨5, "PoolB"⟩ [] [] =
      ⟨.failJson ("VM vm1 is powered on and virtual hardware changes have been " ++
        "detected. Please shutdown the VM and rerun this action to apply the " ++
        "following changes: Relocate VM from resource pool PoolA to PoolB, " ++
        "Change configured number of CPUs of VM from 2 to 4"), []⟩ :=
  ⟨Or.inl (by decide), rfl,
    (c1_safety_gate_blocks guestC1 paramsC1 false ⟨9, "DS1"⟩ ⟨2, "FolderA"⟩
      ⟨5, "PoolB"⟩ [] [] (Or.inl (by decide)) rfl).trans (by decide)⟩

/-- C2 witness: guestC2 equals the projection of paramsC2, so the run is a
changed-false no-op with facts and no submission. -/
theorem c2_idempotent_noop_witness :
    guestC2.resourcePool = (⟨1, "PoolA"⟩ : ObjRef)
    ∧ guestC2.parent = (⟨2, "FolderA"⟩ : ObjRef)
    ∧ guestC2.annotationText = paramsC2.notes
    ∧ guestC2.numCPU = paramsC2.num_cpus
    ∧ guestC2.memoryMB = paramsC2.memory_mb
    ∧ change_guest guestC2 paramsC2 false ⟨9, "DS1"⟩ ⟨2, "FolderA"⟩ ⟨1, "PoolA"⟩ [] [] =
      ⟨.exitJson false none (gather_facts guestC2), []⟩ :=
  ⟨rfl, rfl, rfl, rfl, rfl,
    c2_idempotent_noop guestC2 paramsC2 false ⟨9, "DS1"⟩ ⟨2, "FolderA"⟩ ⟨1, "PoolA"⟩
      [] [] rfl rfl rfl rfl rfl⟩

/-- C3: when the change set needs both relocation and reconfiguration and
the gate passes, the executor submits exactly one relocation task followed
by exactly one reconfiguration task, in that order. -/
theorem c3_relocation_before_reconfiguration (g : Guest) (p : Params)
    (d f rp : ObjRef) (rl rc : List TaskState) (v : Guest)
    (hrel : (compare_guest g p f rp).relocation_required = true)
    (hrec : (compare_guest g p f rp).reconfiguration_required = true)
    (hgate : ¬((compare_guest g p f rp).requires_shutdown = true ∧
      g.powerState = "poweredOn"))
    (hwait : wait_for_task rl = WaitOutcome.result v) :
    (change_guest g p false d f rp rl rc).tasks =
      [.relocate (compare_guest g p f rp).relocation_spec,
       .reconfigure (compare_guest g p f rp).virtualmachine_conf] := by
  have h1 := changes_pos_of_reloc g p f rp hrel
  simp only [change_guest]
  rw [if_pos h1, if_neg hgate]
  simp only [Bool.false_eq_true, if_false]
  simp only [exec_changes, hrel, hrec, hwait, if_true]
  cases hrc : wait_for_task rc <;> simp [hrc]

/-- C3 witness: guestC3 needs a pool relocation and an annotation
reconfiguration; with a succeeding relocation wait, the submitted work is
the single relocation task followed by the single reconfiguration task. -/
theorem c3_relocation_before_reconfiguration_witness :
    (compare_guest guestC3 paramsC3 ⟨2, "FolderA"⟩ ⟨5, "PoolB"⟩).relocation_required = true
    ∧ (compare_guest guestC3 paramsC3 ⟨2, "FolderA"⟩ ⟨5, "PoolB"⟩).reconfiguration_required = true
    ∧ ¬((compare_guest guestC3 paramsC3 ⟨2, "FolderA"⟩ ⟨5, "PoolB"⟩).requires_shutdown = true ∧
        guestC3.powerState = "poweredOn")
    ∧ wait_for_task [TaskState.success guestC3] = WaitOutcome.result guestC3
    ∧ (change_guest guestC3 paramsC3 false ⟨9, "DS1"⟩ ⟨2, "FolderA"⟩ ⟨5, "PoolB"⟩
        [TaskState.success guestC3] [TaskState.success guestC3]).tasks =
      [.relocate { datastore := none, pool := some ⟨5, "PoolB"⟩, folder := none },
       .reconfigure { annotationText := some "b", numCPUs := none, memoryMB := none,
                      cpuHotAddEnabled := none, memoryHotAddEnabled := none }] :=
  ⟨by decide, by decide, by decide, rfl,
    (c3_relocation_before_reconfiguration guestC3 paramsC3 ⟨9, "DS1"⟩ ⟨2, "FolderA"⟩
      ⟨5, "PoolB"⟩ [TaskState.success guestC3] [TaskState.success guestC3] guestC3
      (by decide) (by decide) (by decide) rfl).trans (by decide)⟩

/-- C4 counterexample: the observed pool and parent references differ in
identity from the desired references while carrying equal display names, yet
the run is a changed-false no-op — the decision is not identity equality on
the resolved references. -/
theorem c4_counterexample_name_vs_identity :
    guestC4.resourcePool ≠ (⟨20, "PoolA"⟩ : ObjRef)
    ∧ guestC4.parent ≠ (⟨30, "FolderA"⟩ : ObjRef)
    ∧ change_guest guestC4 paramsC4 false ⟨9, "DS1"⟩ ⟨30, "FolderA"⟩ ⟨20, "PoolA"⟩ [] [] =
      ⟨.exitJson false none (gather_facts guestC4), []⟩ :=
  ⟨by decide, by decide, by decide⟩

/-- C4 amended: the Comparator decides the resource-pool and folder changes
by equality of the display names of the resolved references alone. -/
theorem c4_comparator_uses_display_names (g : Guest) (p : Params) (f rp : ObjRef) :
    (compare_guest g p f rp).relocation_spec.pool =
      (if g.resourcePool.name ≠ rp.name then some rp else none)
    ∧ (compare_guest g p f rp).relocation_spec.folder =
      (if g.parent.name ≠ f.name then some f else none)
    ∧ (compare_guest g p f rp).relocation_required =
      (decide (g.resourcePool.name ≠ rp.name) || decide (g.parent.name ≠ f.name)) := by
  rw [compare_guest_eq]
  exact ⟨rfl, rfl, rfl⟩

/-- C8: the run outcome is unchanged under any change of the desired
datastore and of the VM's observed datastore, and the relocation spec never
carries a datastore. -/
theorem c8_datastore_frame (g : Guest) (p : Params) (cm : Bool)
    (d d' f rp : ObjRef) (x : String) (rl rc : List TaskState) :
    change_guest { g with datastore0name := x } p cm d' f rp rl rc =
      change_guest g p cm d f rp rl rc
    ∧ (compare_guest g p f rp).relocation_spec.datastore = none := by
  constructor
  · cases g
    rfl
  · rw [compare_guest_eq]

/-- C9 counterexample: in check mode with one pending change, the response
lists the change unmodified plus a single trailing notice sentence; no
description carries the dry-run suffix claimed by the spec. -/
theorem c9_counterexample_check_mode_notice :
    change_guest guestC9 paramsC9 true ⟨9, "DS1"⟩ ⟨2, "FolderA"⟩ ⟨1, "PoolA"⟩ [] [] =
      ⟨.exitJson true (some
        ["Change configured annotation of VM from \"old note\" to \"new note\"",
         "These changes were detected, but not applied, due to running in check mode"])
        (gather_facts guestC9), []⟩
    ∧ (" (not applied, dry-run)".data.isSuffixOf
        "Change configured annotation of VM from \"old note\" to \"new note\"".data) = false
    ∧ (" (not applied, dry-run)".data.isSuffixOf
        "These changes were detected, but not applied, due to running in check mode".data) = false :=
  ⟨by decide, by decide, by decide⟩

/-- C9 amended: in check mode with a non-empty applicable change set, no
work is submitted and the response is changed true with the pending change
descriptions kept verbatim plus one appended check-mode notice sentence. -/
theorem c9_check_mode_reports (g : Guest) (p : Params) (d f rp : ObjRef)
    (rl rc : List TaskState)
    (hne : (compare_guest g p f rp).changes ≠ [])
    (hgate : ¬((compare_guest g p f rp).requires_shutdown = true ∧
      g.powerState = "poweredOn")) :
    change_guest g p true d f rp rl rc =
      ⟨.exitJson true (some ((compare_guest g p f rp).changes ++
        ["These changes were detected, but not applied, due to running in check mode"]))
        (gather_facts g), []⟩ := by
  have h1 : 0 < (compare_guest g p f rp).changes.length := List.length_pos.mpr hne
  simp only [change_guest]
  rw [if_pos h1, if_neg hgate]
  simp

/-- C9 witness: guestC9 has a pending annotation change; in check mode the
response appends the notice and submits nothing. -/
theorem c9_check_mode_reports_witness :
    (compare_guest guestC9 paramsC9 ⟨2, "FolderA"⟩ ⟨1, "PoolA"⟩).changes ≠ []
    ∧ ¬((compare_guest guestC9 paramsC9 ⟨2, "FolderA"⟩ ⟨1, "PoolA"⟩).requires_shutdown = true ∧
        guestC9.powerState = "poweredOn")
    ∧ change_guest guestC9 paramsC9 true ⟨9, "DS1"⟩ ⟨2, "FolderA"⟩ ⟨1, "PoolA"⟩ [] [] =
      ⟨.exitJson true (some
        ((compare_guest guestC9 paramsC9 ⟨2, "FolderA"⟩ ⟨1, "PoolA"⟩).changes ++
          ["These changes were detected, but not applied, due to running in check mode"]))
        (gather_facts guestC9), []⟩ :=
  ⟨by decide, by decide,
    c9_check_mode_reports guestC9 paramsC9 ⟨9, "DS1"⟩ ⟨2, "FolderA"⟩ ⟨1, "PoolA"⟩ [] []
      (by decide) (by decide)⟩

/-- C7 witness: one running poll then a DuplicateName failure yields the
refined message naming the colliding object. -/
theorem c7_task_failure_classification_witness :
    (∀ s ∈ [TaskState.running], s = TaskState.running)
    ∧ wait_for_task ([TaskState.running] ++ TaskState.error (Fault.duplicateName "vm1") :: []) =
      .failJson "an object with the name vm1 already exists" :=
  ⟨by decide,
    (c7_task_failure_classification [TaskState.running] (by decide)
      (Fault.duplicateName "vm1") []).trans (by decide)⟩

end VSphere

namespace MigratePool

/-- When no candidate path ends with the desired pool name the matcher loop
fails naming only the pool, and submits no migration. -/
theorem find_pool_loop_not_found (params : PoolParams) (cm : Bool)
    (old host : String) (l : List (Nat × String))
    (h : ∀ q ∈ l, ends_with q.2 params.resource_pool = false) :
    find_pool_loop params cm old host l =
      ⟨.failJson ("Resource pool " ++ params.resource_pool ++ " not found"), []⟩ := by
  induction l with
  | nil => rfl
  | cons q tl ih =>
    obtain ⟨qm, qp⟩ := q
    have hq : ends_with qp params.resource_pool = false := h (qm, qp) (by simp)
    simp only [find_pool_loop, hq, Bool.false_eq_true, if_false]
    exact ih (fun t ht => h t (by simp [ht]))

/-- C5 counterexample: with desired name Pool and current pool name
Resources/Pool, the first candidate path ends with both names, so the run
exits changed-false with no migration even though the second candidate ends
with the desired name and not with the current one — the matcher never
selects "the first candidate whose path does not also end with the current
pool name"; it stops at the first candidate outright. -/
theorem c5_counterexample_first_candidate_stops :
    ends_with "/DC/Other/Pool" poolParamsC5.resource_pool = true
    ∧ ends_with "/DC/Other/Pool" "Resources/Pool" = false
    ∧ find_pool_loop poolParamsC5 false "Resources/Pool" "esx1.example.com"
        [(1, "/DC/Resources/Pool"), (2, "/DC/Other/Pool")] =
      ⟨.exitJson false poolParamsC5, []⟩ :=
  ⟨by decide, by decide, by decide⟩

/-- C5 amended: the matcher skips paths not ending with the desired name and
the FIRST path ending with it decides the run: exit changed-false when that
path also ends with the current pool name, otherwise migrate to it (one
migration, skipped in check mode) and exit changed-true; later candidates
are never examined. -/
theorem c5_matcher_first_candidate (params : PoolParams) (cm : Bool)
    (old host : String) (pre : List (Nat × String)) (mor : Nat) (path : String)
    (rest : List (Nat × String))
    (hpre : ∀ q ∈ pre, ends_with q.2 params.resource_pool = false)
    (hcand : ends_with path params.resource_pool = true) :
    find_pool_loop params cm old host (pre ++ (mor, path) :: rest) =
      if ends_with path old then ⟨.exitJson false params, []⟩
      else ⟨.exitJson true params, if cm then [] else [⟨mor, host, params.sync⟩]⟩ := by
  induction pre with
  | nil =>
    simp only [List.nil_append, find_pool_loop, hcand, if_true]
    by_cases h : ends_with path old <;> simp [h]
  | cons q tl ih =>
    obtain ⟨qm, qp⟩ := q
    have hq : ends_with qp params.resource_pool = false := hpre (qm, qp) (by simp)
    simp only [List.cons_append, find_pool_loop, hq, Bool.false_eq_true, if_false]
    exact ih (fun t ht => hpre t (by simp [ht]))

/-- C5 witness: one non-matching path precedes the matching one, whose path
does not end with the current pool name Other, so the VM is migrated there
and the run exits changed-true. -/
theorem c5_matcher_first_candidate_witness :
    (∀ q ∈ [((0 : Nat), "/DC/X")], ends_with q.2 poolParamsC5W.resource_pool = false)
    ∧ ends_with "/DC/Resources" poolParamsC5W.resource_pool = true
    ∧ find_pool_loop poolParamsC5W false "Other" "esx1.example.com"
        [(0, "/DC/X"), (1, "/DC/Resources")] =
      ⟨.exitJson true poolParamsC5W, [⟨1, "esx1.example.com", true⟩]⟩ :=
  ⟨by decide, by decide,
    (c5_matcher_first_candidate poolParamsC5W false "Other" "esx1.example.com"
      [(0, "/DC/X")] 1 "/DC/Resources" [] (by decide) (by decide)).trans (by decide)⟩

/-- C6 counterexample: with desired pool Ghost absent from every candidate
path, the failure message is the fixed string naming only the pool — it is
identical across two different servers and the first server's hostname is
not even a substring of it, so the message does not name the server. -/
theorem c6_counterexample_message_lacks_server :
    vsphere_migrate_pool_main poolParamsC6A false "OldPool" "esx1"
        [(7, "ClusterA")] (fun _ => [(1, "/DC/Pools/Alpha")]) =
      ⟨.failJson "Resource pool Ghost not found", []⟩
    ∧ vsphere_migrate_pool_main poolParamsC6B false "OldPool" "esx1"
        [(7, "ClusterA")] (fun _ => [(1, "/DC/Pools/Alpha")]) =
      ⟨.failJson "Resource pool Ghost not found", []⟩
    ∧ ¬ ("server-one.example.com".data <:+: "Resource pool Ghost not found".data) :=
  ⟨by decide, by decide, by decide⟩

/-- C6 amended: when the cluster is found but no pool path under it ends
with the desired name, the run fails with a message naming the desired pool
(but not the server) and no migration is attempted. -/
theorem c6_pool_not_found (params : PoolParams) (cm : Bool) (old host : String)
    (clusters : List (Nat × String)) (rps : Nat → List (Nat × String))
    (cmor : Nat) (cname : String)
    (hfind : clusters.find? (fun c => c.2 == params.cluster) = some (cmor, cname))
    (hnone : ∀ q ∈ rps cmor, ends_with q.2 params.resource_pool = false) :
    vsphere_migrate_pool_main params cm old host clusters rps =
      ⟨.failJson ("Resource pool " ++ params.resource_pool ++ " not found"), []⟩ := by
  unfold vsphere_migrate_pool_main
  rw [hfind]
  exact find_pool_loop_not_found params cm old host (rps cmor) hnone

/-- C6 witness: cluster ClusterA resolves, no path ends with Ghost, and the
run fails naming the pool with no migration. -/
theorem c6_pool_not_found_witness :
    ([((7 : Nat), "ClusterA")].find? (fun c => c.2 == poolParamsC6A.cluster) =
      some (7, "ClusterA"))
    ∧ (∀ q ∈ [((1 : Nat), "/DC/Pools/Alpha")],
        ends_with q.2 poolParamsC6A.resource_pool = false)
    ∧ vsphere_migrate_pool_main poolParamsC6A false "OldPool" "esx1"
        [(7, "ClusterA")] (fun _ => [(1, "/DC/Pools/Alpha")]) =
      ⟨.failJson ("Resource pool " ++ poolParamsC6A.resource_pool ++ " not found"), []⟩ :=
  ⟨by decide, by decide,
    c6_pool_not_found poolParamsC6A false "OldPool" "esx1" [(7, "ClusterA")]
      (fun _ => [(1, "/DC/Pools/Alpha")]) 7 "ClusterA" (by decide) (by decide)⟩

end MigratePool
